import Mathlib

/-!
Verification of the Ekam Query hybrid query engine against its specification.

The repository sources available here are the React presentation layer:
the `SqlTable`, `DocumentCards` and `ResultsView` components, the
`QueryPanel` submit handler and the `App` query-submit handler.  Those are
embedded directly from the source.  The backend core (orchestrator,
classifier, text-to-SQL generator, document retriever, cache) is not part
of the available sources; where a claim depends on it, the relevant
operation is modelled from the specification, and each such definition is
marked `Modelled from the spec:` in its doc comment.
-/

namespace Ekam

/-! ## Data model -/

/-- A SQL result cell as it appears in the JSON envelope consumed by the
frontend: SQL NULL is an explicit null marker (JS `null`), other cells are
strings or numbers.  Distinct from the empty string by construction. -/
inductive Cell
  | null
  | str (s : String)
  | num (n : Int)
  deriving DecidableEq, Repr

/-- JS truthiness of a cell value, as used by the `||` fallback on
part_000 line 86: `null`/`undefined`, the empty string and `0` are falsy. -/
def Cell.truthy : Cell → Bool
  | .null => false
  | .str s => s ≠ ""
  | .num n => n ≠ 0

/-- JS `String(cell)` coercion (part_000 line 133) and the text produced
when a truthy cell is interpolated into JSX. -/
def Cell.jsString : Cell → String
  | .null => "null"
  | .str s => s
  | .num n => toString n

/-- `SqlResult` envelope (§3): ordered columns, ordered rows,
`generated_query` for display. -/
structure SqlResult where
  columns : List String
  rows : List (List Cell)
  generated_query : String
  deriving DecidableEq, Repr

/-- `DocumentAnswer` (§3): one extracted answer with its provenance and
similarity score (scores modelled as rationals). -/
structure DocumentAnswer where
  source_file : String
  chunk_index : Nat
  answer : String
  similarity_score : ℚ
  deriving DecidableEq, Repr

/-- Query classification outcome (§3): one of sql, document, hybrid,
unknown. -/
inductive QueryType
  | sql
  | document
  | hybrid
  | unknown
  deriving DecidableEq, Repr

/-- The wire form of a query type as it reaches the frontend. -/
def QueryType.toWire : QueryType → String
  | .sql => "sql"
  | .document => "document"
  | .hybrid => "hybrid"
  | .unknown => "unknown"

/-- Cache status of a response (§3). -/
inductive CacheStatus
  | hit
  | miss
  deriving DecidableEq, Repr

/-- `QueryResponse` envelope (§3): the branch a classification did not
select is left unset (`none`), a selected branch is populated (possibly
with an empty list of document answers). -/
structure QueryResponse where
  query_type : QueryType
  sql_result : Option SqlResult
  document_results : Option (List DocumentAnswer)
  cache_status : CacheStatus
  deriving DecidableEq, Repr

/-! ## Frontend embeddings (from the source under src/) -/

/-- The sentinel test of the `SqlTable` component (part_000 line 67):
`sqlResult.columns.length === 1 && sqlResult.columns[0] === "Error"`. -/
def isErrorSentinel (r : SqlResult) : Bool :=
  r.columns.length == 1 && r.columns.head? == some "Error"

/-- The error message shown in the sentinel branch (part_000 line 86):
`sqlResult.rows[0]?.[0] || "Unknown database error"` — optional chaining
followed by a JS-falsy fallback. -/
def sqlErrorMessage (rows : List (List Cell)) : String :=
  match rows.head?.bind List.head? with
  | some c => if c.truthy then c.jsString else "Unknown database error"
  | none => "Unknown database error"

/-- A rendered table cell (part_000 lines 128-135): SQL NULL renders as a
distinguished NULL badge, everything else as `String(cell)` text. -/
inductive RenderedCell
  | nullBadge
  | text (s : String)
  deriving DecidableEq, Repr

/-- Cell rendering in the table body (part_000 lines 128-135). -/
def renderCell : Cell → RenderedCell
  | .null => .nullBadge
  | c => .text c.jsString

/-- The four render outcomes of the `SqlTable` component. -/
inductive SqlTableView
  | noResult
  | errorView (failedQuery : Option String) (genFailed : Bool) (message : String)
  | zeroRows (shownQuery : String)
  | table (shownQuery : String) (header : List String)
      (body : List (List RenderedCell)) (rowCount : Nat)
  deriving DecidableEq, Repr

/-- Whether a render outcome is the error branch. -/
def SqlTableView.isError : SqlTableView → Bool
  | .errorView _ _ _ => true
  | _ => false

/-- The error message carried by the error branch, if any. -/
def SqlTableView.message : SqlTableView → Option String
  | .errorView _ _ m => some m
  | _ => none

/-- Shallow embedding of the `SqlTable` component (part_000 lines 58-151):
no result, the sentinel error branch, the zero-row branch, or the table. -/
def SqlTable : Option SqlResult → SqlTableView
  | none => .noResult
  | some r =>
    if isErrorSentinel r then
      .errorView
        (if r.generated_query ≠ "" ∧ r.generated_query ≠ "Failed" then
          some r.generated_query
        else none)
        (r.generated_query == "Failed")
        (sqlErrorMessage r.rows)
    else if r.rows.length == 0 then
      .zeroRows (if r.generated_query ≠ "" then r.generated_query else "N/A")
    else
      .table (if r.generated_query ≠ "" then r.generated_query else "N/A")
        r.columns (r.rows.map (fun row => row.map renderCell)) r.rows.length

/-- Section gating of `ResultsView` (part_000 lines 290-304): the Database
Result section is rendered exactly when `query_type` is `sql` or
`hybrid`. -/
def showSqlSection (query_type : String) : Bool :=
  query_type == "sql" || query_type == "hybrid"

/-- Section gating of `ResultsView` (part_000 lines 307-309): the Document
Answer section is rendered exactly when `query_type` is `document`,
`hybrid` or `unknown`. -/
def showDocumentSection (query_type : String) : Bool :=
  query_type == "document" || query_type == "hybrid" || query_type == "unknown"

/-- The query-type label helper of `ResultsView` (part_000 lines 241-249):
a lookup table with a JS-falsy fallback to the raw type string. -/
def formatQueryType (t : String) : String :=
  if t == "sql" then "Database"
  else if t == "document" then "Documents"
  else if t == "hybrid" then "Database + Documents"
  else if t == "unknown" then "Unknown (Default Document)"
  else t

/-- JS `String.prototype.trim`: strips leading and trailing whitespace.
Embedded as an executable function over the character list. -/
def jsTrim (s : String) : String :=
  String.mk
    ((s.toList.dropWhile Char.isWhitespace).reverse.dropWhile
      Char.isWhitespace).reverse

/-- `QueryPanel.handleSubmit` (QueryPanel.jsx lines 7-12): `onSubmit` is
invoked with the query only when the trimmed query is non-empty and the
panel is not loading; `none` means no submission happens. -/
def handleSubmit (query : String) (isLoading : Bool) : Option String :=
  if jsTrim query != "" && !isLoading then some query else none

/-- The submit button disabled attribute (QueryPanel.jsx line 42):
`disabled={isLoading || !query.trim()}`. -/
def queryButtonDisabled (query : String) (isLoading : Bool) : Bool :=
  isLoading || jsTrim query == ""

/-- The observable first step taken by `App.handleQuerySubmit`. -/
inductive SubmitAction
  | validationError (msg : String)
  | callBackend (query : String)
  deriving DecidableEq, Repr

/-- The synchronous guard of `App.handleQuerySubmit` (part_001 lines
14-19): an empty trimmed query sets a validation error and returns before
`submitQuery` is called; otherwise the query is sent to the backend. -/
def handleQuerySubmit (query : String) : SubmitAction :=
  if jsTrim query == "" then .validationError "Please enter a query"
  else .callBackend query

/-! ## Backend core, modelled from the specification

The backend (orchestrator, classifier, text-to-SQL generator, document
retriever) is not among the available sources; the definitions below are
modelled from the specification's words, with the fallible capabilities
(generation, validation, execution, extraction) passed in as explicit
outcomes or oracles. -/

/-- Modelled from the spec: the outcome of the single invocation of the
SQL generation capability (§4.4 step 2, "one shot") — the backend
generator source is not under src/. -/
inductive GenOutcome
  | ok (sql : String)
  | threw (message : String)
  deriving DecidableEq, Repr

/-- Modelled from the spec: the outcome of executing a validated statement
against the database (§4.4 step 4) — the backend executor source is not
under src/.  A successful execution carries the column list and rows
verbatim. -/
inductive ExecOutcome
  | ok (columns : List String) (rows : List (List Cell))
  | err (message : String)
  deriving DecidableEq, Repr

/-- Modelled from the spec: the sentinel encoding of failure inside the
success channel (§3): `columns = ["Error"]`, `rows = [[error_message]]`. -/
def errorSentinel (message generated : String) : SqlResult :=
  { columns := ["Error"], rows := [[Cell.str message]], generated_query := generated }

/-- Modelled from the spec: §4.4 `generate_and_run` — the backend
generator source is not under src/.  The single generation outcome is
consumed once (no retry); a generation throw yields the sentinel with
`generated_query = "Failed"`; a candidate failing structural validation is
rejected before execution with the sentinel and the candidate text
preserved; a database error is captured into the sentinel with the
candidate text preserved; a successful execution's columns and rows are
captured verbatim. -/
def generate_and_run (gen : GenOutcome) (validates : String → Bool)
    (exec : String → ExecOutcome) : SqlResult :=
  match gen with
  | .threw m => errorSentinel m "Failed"
  | .ok sql =>
    if validates sql then
      match exec sql with
      | .ok cols rows => { columns := cols, rows := rows, generated_query := sql }
      | .err m => errorSentinel m sql
    else
      errorSentinel "Generated statement failed structural validation" sql

/-- Modelled from the spec: §4.3 — classification never fails the whole
request: a failure of the inner classification degrades to `unknown`.
The backend classifier source is not under src/. -/
def classify (inner : Except String QueryType) : QueryType :=
  match inner with
  | .ok t => t
  | .error _ => .unknown

/-- Modelled from the spec: §4.7 Merge — the orchestrator attaches
whichever of the two branches the classification selected and leaves the
others unset; `unknown` routes to the document path as the safe default
(§4.3); a freshly computed (cache-miss) response carries
`cache_status = miss`.  The backend orchestrator source is not under
src/. -/
def orchestrate (c : QueryType) (sqlBranch : SqlResult)
    (docBranch : List DocumentAnswer) : QueryResponse :=
  match c with
  | .sql =>
    { query_type := .sql, sql_result := some sqlBranch,
      document_results := none, cache_status := .miss }
  | .document =>
    { query_type := .document, sql_result := none,
      document_results := some docBranch, cache_status := .miss }
  | .hybrid =>
    { query_type := .hybrid, sql_result := some sqlBranch,
      document_results := some docBranch, cache_status := .miss }
  | .unknown =>
    { query_type := .unknown, sql_result := none,
      document_results := some docBranch, cache_status := .miss }

/-- Modelled from the spec: a document chunk as the retriever sees it
(§3). -/
structure Chunk where
  source_file : String
  chunk_index : Nat
  text : String
  deriving DecidableEq, Repr

/-- Modelled from the spec: a retrieved candidate — a chunk paired with
its similarity score (§4.5 step 2). -/
structure Candidate where
  chunk : Chunk
  similarity : ℚ
  deriving DecidableEq, Repr

/-- Modelled from the spec: a successful extraction over a candidate —
its answer span and confidence score (§4.5 step 3). -/
structure Extraction where
  candidate : Candidate
  span : String
  score : ℚ
  deriving DecidableEq, Repr

/-- Modelled from the spec: §4.5 step 3 — run the extraction capability
over each candidate above the minimum similarity floor; extraction failure
on a candidate excludes only that candidate.  The backend retriever source
is not under src/. -/
def extractions (topK : List Candidate) (extract : Chunk → Option (String × ℚ))
    (minSim : ℚ) : List Extraction :=
  (topK.filter fun cand => decide (minSim < cand.similarity)).filterMap
    fun cand => (extract cand.chunk).map
      fun sp => { candidate := cand, span := sp.1, score := sp.2 }

/-- Modelled from the spec: §4.5 step 4 — select the single best-scoring
extraction across the candidates (earlier candidates win ties). -/
def bestExtraction : List Extraction → Option Extraction
  | [] => none
  | e :: es =>
    match bestExtraction es with
    | none => some e
    | some b => if b.score ≤ e.score then some e else some b

/-- The `DocumentAnswer` built from a chosen extraction. -/
def toAnswer (e : Extraction) : DocumentAnswer :=
  { source_file := e.candidate.chunk.source_file,
    chunk_index := e.candidate.chunk.chunk_index,
    answer := e.span,
    similarity_score := e.candidate.similarity }

/-- Modelled from the spec: §4.5 `answer` — returns at most one
`DocumentAnswer`, the best-scoring extraction, or the empty list when no
candidate clears the similarity floor or every extraction fails.  The
backend retriever source is not under src/. -/
def answer (topK : List Candidate) (extract : Chunk → Option (String × ℚ))
    (minSim : ℚ) : List DocumentAnswer :=
  match bestExtraction (extractions topK extract minSim) with
  | none => []
  | some b => [toAnswer b]

/-! ## Helper lemmas -/

/-- Unfolding of the renderer's sentinel test. -/
theorem isErrorSentinel_eq_true_iff (r : SqlResult) :
    isErrorSentinel r = true ↔
      r.columns.length = 1 ∧ r.columns.head? = some "Error" := by
  simp [isErrorSentinel]

/-- A one-element column list whose head is "Error" is exactly the
sentinel column list. -/
theorem columns_singleton (cols : List String) (h1 : cols.length = 1)
    (h2 : cols.head? = some "Error") : cols = ["Error"] := by
  cases cols with
  | nil => simp at h2
  | cons a t =>
    cases t with
    | nil => simp_all
    | cons b u => simp at h1

/-- A result whose column list differs from ["Error"] is not classified as
the sentinel by the renderer. -/
theorem isErrorSentinel_false_of_ne (r : SqlResult)
    (h : r.columns ≠ ["Error"]) : isErrorSentinel r = false := by
  cases hx : isErrorSentinel r with
  | false => rfl
  | true =>
    exfalso
    obtain ⟨h1, h2⟩ := (isErrorSentinel_eq_true_iff r).mp hx
    exact h (columns_singleton r.columns h1 h2)

/-- The SqlTable render outcome is the error branch exactly when the
sentinel test holds. -/
theorem sqlTable_isError (r : SqlResult) :
    (SqlTable (some r)).isError = isErrorSentinel r := by
  simp only [SqlTable]
  split
  · next h => simp [SqlTableView.isError, h]
  · next h =>
    have h' : isErrorSentinel r = false := by simpa using h
    split <;> simp [SqlTableView.isError, h']

/-- `bestExtraction` never returns `none` on a non-empty list. -/
theorem bestExtraction_eq_none {l : List Extraction}
    (h : bestExtraction l = none) : l = [] := by
  cases l with
  | nil => rfl
  | cons e es =>
    exfalso
    simp only [bestExtraction] at h
    cases hes : bestExtraction es with
    | none => rw [hes] at h; simp at h
    | some b => rw [hes] at h; dsimp only at h; split at h <;> simp_all

/-- The extraction selected by `bestExtraction` scores at least as high as
every extraction in the list. -/
theorem bestExtraction_is_max (l : List Extraction) (b : Extraction)
    (hb : bestExtraction l = some b) : ∀ x ∈ l, x.score ≤ b.score := by
  induction l generalizing b with
  | nil => simp [bestExtraction] at hb
  | cons e es ih =>
    intro x hx
    simp only [bestExtraction] at hb
    cases hes : bestExtraction es with
    | none =>
      rw [hes] at hb
      dsimp only at hb
      obtain rfl : e = b := by simpa using hb
      have hese : es = [] := bestExtraction_eq_none hes
      subst hese
      obtain rfl : x = e := by simpa using hx
      exact le_refl _
    | some b0 =>
      rw [hes] at hb
      dsimp only at hb
      by_cases hle : b0.score ≤ e.score
      · rw [if_pos hle] at hb
        obtain rfl : e = b := by simpa using hb
        rcases List.mem_cons.mp hx with rfl | hxs
        · exact le_refl _
        · exact le_trans (ih b0 hes x hxs) hle
      · rw [if_neg hle] at hb
        obtain rfl : b0 = b := by simpa using hb
        rcases List.mem_cons.mp hx with rfl | hxs
        · exact le_of_not_le hle
        · exact ih _ hes x hxs

/-! ## Claim theorems -/

/-- Claim C2: for every query classified `sql` the response carries no
document results, for every query classified `document` it carries no SQL
result, and for `hybrid` both fields are populated (each possibly empty);
correspondingly the `ResultsView` renderer shows only the matching
sections. -/
theorem c2_classification_routing (s : SqlResult) (d : List DocumentAnswer) :
    (orchestrate .sql s d).document_results = none ∧
    (orchestrate .sql s d).sql_result = some s ∧
    (orchestrate .document s d).sql_result = none ∧
    (orchestrate .document s d).document_results = some d ∧
    (orchestrate .hybrid s d).sql_result = some s ∧
    (orchestrate .hybrid s d).document_results = some d ∧
    showSqlSection (QueryType.sql).toWire = true ∧
    showDocumentSection (QueryType.sql).toWire = false ∧
    showDocumentSection (QueryType.document).toWire = true ∧
    showSqlSection (QueryType.document).toWire = false :=
  ⟨rfl, rfl, rfl, rfl, rfl, rfl, rfl, rfl, rfl, rfl⟩

/-- Claim C4: when SQL generation itself throws, the returned SqlResult
has `generated_query = "Failed"` and the sentinel shape; the model
consumes exactly one generation outcome, so no retry is possible. -/
theorem c4_generation_throw (m : String) (validates : String → Bool)
    (exec : String → ExecOutcome) :
    (generate_and_run (.threw m) validates exec).generated_query = "Failed" ∧
    (generate_and_run (.threw m) validates exec).columns = ["Error"] ∧
    (generate_and_run (.threw m) validates exec).rows = [[Cell.str m]] :=
  ⟨rfl, rfl, rfl⟩

/-- Claim C8: classification failure degrades the query type to `unknown`
rather than failing the request, and `unknown` routes to the document path
as the safe default — the response carries document results and no SQL
result, and the renderer shows the document section, not the SQL
section. -/
theorem c8_classification_failure_degrades (e : String) (s : SqlResult)
    (d : List DocumentAnswer) :
    classify (.error e) = .unknown ∧
    (orchestrate .unknown s d).sql_result = none ∧
    (orchestrate .unknown s d).document_results = some d ∧
    showDocumentSection (QueryType.unknown).toWire = true ∧
    showSqlSection (QueryType.unknown).toWire = false ∧
    formatQueryType (QueryType.unknown).toWire = "Unknown (Default Document)" :=
  ⟨rfl, rfl, rfl, rfl, rfl, rfl⟩

/-- Claim C9: the SqlTable renderer classifies a result as the error
sentinel exactly when `columns` has length 1 and its sole element is
"Error"; inside that branch the message access is guarded, falling back to
"Unknown database error" when the first row or its first cell is missing,
so a sentinel-shaped result always renders to a well-defined error
view. -/
theorem c9_sentinel_detection (r : SqlResult) :
    ((SqlTable (some r)).isError = true ↔
      (r.columns.length = 1 ∧ r.columns.head? = some "Error")) ∧
    (r.rows.head?.bind List.head? = none → isErrorSentinel r = true →
      (SqlTable (some r)).message = some "Unknown database error") := by
  constructor
  · rw [sqlTable_isError]
    exact isErrorSentinel_eq_true_iff r
  · intro hnone hs
    simp [SqlTable, hs, SqlTableView.message, sqlErrorMessage, hnone]

/-- Witness for C9: a sentinel-shaped result with no rows renders to the
error view with the fallback message. -/
theorem c9_witness :
    (SqlTable (some ⟨["Error"], [], "SELECT 1"⟩)).message =
      some "Unknown database error" :=
  (c9_sentinel_detection ⟨["Error"], [], "SELECT 1"⟩).2 rfl rfl

/-- Claim C10: a query whose trimmed form is empty is never submitted to
the backend — QueryPanel's handleSubmit does not call onSubmit, the submit
button is disabled, and App's handleQuerySubmit sets a validation error
and returns before calling submitQuery. -/
theorem c10_empty_query_not_submitted (q : String) (l : Bool)
    (h : jsTrim q = "") :
    handleSubmit q l = none ∧
    queryButtonDisabled q l = true ∧
    handleQuerySubmit q = .validationError "Please enter a query" := by
  refine ⟨?_, ?_, ?_⟩ <;>
    simp [handleSubmit, queryButtonDisabled, handleQuerySubmit, h]

/-- Witness for C10: a whitespace-only query is blocked on all three
paths. -/
theorem c10_witness :
    handleSubmit "   " false = none ∧
    queryButtonDisabled "   " true = true ∧
    handleQuerySubmit "   " = .validationError "Please enter a query" :=
  ⟨(c10_empty_query_not_submitted "   " false (by decide)).1,
   (c10_empty_query_not_submitted "   " true (by decide)).2.1,
   (c10_empty_query_not_submitted "   " false (by decide)).2.2⟩

/-- Counterexample to Claim C1 as stated: a structurally valid read-only
statement that aliases its single output column as "Error" (for example
SELECT 1 AS "Error") and matches no rows yields, via the verbatim capture
of a successful execution, an SqlResult with columns = ["Error"] but zero
rows — the sentinel shape implication fails. -/
theorem c1_counterexample :
    (generate_and_run (.ok "SELECT 1 AS Error FROM employees WHERE false")
      (fun _ => true) (fun _ => .ok ["Error"] [])).columns = ["Error"] ∧
    (generate_and_run (.ok "SELECT 1 AS Error FROM employees WHERE false")
      (fun _ => true) (fun _ => .ok ["Error"] [])).rows.length = 0 ∧
    (generate_and_run (.ok "SELECT 1 AS Error FROM employees WHERE false")
      (fun _ => true) (fun _ => .ok ["Error"] [])).rows.length ≠ 1 :=
  ⟨rfl, rfl, by decide⟩

/-- Claim C1 (amended): every SqlResult produced by the SQL path's failure
handling carries the sentinel shape — columns = ["Error"] and exactly one
row with exactly one cell — and the claim's implication holds for every
produced result provided successful executions never return the
one-element column list ["Error"]. -/
theorem c1_sentinel_shape (gen : GenOutcome) (validates : String → Bool)
    (exec : String → ExecOutcome)
    (h : ∀ sql cols rows, gen = .ok sql → validates sql = true →
      exec sql = .ok cols rows → cols ≠ ["Error"])
    (hcol : (generate_and_run gen validates exec).columns = ["Error"]) :
    (generate_and_run gen validates exec).rows.length = 1 ∧
    ∀ row ∈ (generate_and_run gen validates exec).rows, row.length = 1 := by
  cases gen with
  | threw m =>
    exact ⟨rfl, by simp [generate_and_run, errorSentinel]⟩
  | ok sql =>
    by_cases hv : validates sql = true
    · cases he : exec sql with
      | ok cols rows =>
        exfalso
        apply h sql cols rows rfl hv he
        have hcc : (generate_and_run (.ok sql) validates exec).columns = cols := by
          simp [generate_and_run, hv, he]
        rw [hcc] at hcol
        exact hcol
      | err m =>
        constructor
        · simp [generate_and_run, hv, he, errorSentinel]
        · simp [generate_and_run, hv, he, errorSentinel]
    · have hv' : validates sql = false := by simpa using hv
      constructor
      · simp [generate_and_run, hv', errorSentinel]
      · simp [generate_and_run, hv', errorSentinel]

/-- Witness for the amended C1: a generation throw produces a sentinel
with exactly one row. -/
theorem c1_witness :
    (generate_and_run (.threw "model inference failed") (fun _ => true)
      (fun _ => .err "unreachable")).rows.length = 1 :=
  (c1_sentinel_shape (.threw "model inference failed") (fun _ => true)
    (fun _ => .err "unreachable")
    (fun _ _ _ hg _ _ => GenOutcome.noConfusion hg) rfl).1

/-- Claim C3: a generated statement that fails structural validation or
execution yields the error sentinel with the attempted statement text
preserved in generated_query, and the orchestrator sets cache_status
normally (miss for a freshly computed response) regardless. -/
theorem c3_failure_preserves_query (sql : String) (validates : String → Bool)
    (exec : String → ExecOutcome) (c : QueryType) (s : SqlResult)
    (d : List DocumentAnswer) :
    (validates sql = false →
      (generate_and_run (.ok sql) validates exec).columns = ["Error"] ∧
      (generate_and_run (.ok sql) validates exec).generated_query = sql) ∧
    (∀ m, validates sql = true → exec sql = .err m →
      (generate_and_run (.ok sql) validates exec).columns = ["Error"] ∧
      (generate_and_run (.ok sql) validates exec).rows = [[Cell.str m]] ∧
      (generate_and_run (.ok sql) validates exec).generated_query = sql) ∧
    (orchestrate c s d).cache_status = .miss := by
  refine ⟨?_, ?_, ?_⟩
  · intro hv
    constructor <;> simp [generate_and_run, hv, errorSentinel]
  · intro m hv he
    refine ⟨?_, ?_, ?_⟩ <;> simp [generate_and_run, hv, he, errorSentinel]
  · cases c <;> rfl

/-- Witness for C3: a statement referencing a nonexistent column is
rejected by the database; the sentinel carries the attempted text, and a
validation-rejected statement is likewise preserved. -/
theorem c3_witness :
    (generate_and_run (.ok "SELECT nope FROM employees") (fun _ => true)
      (fun _ => .err "column nope does not exist")).columns = ["Error"] ∧
    (generate_and_run (.ok "SELECT nope FROM employees") (fun _ => true)
      (fun _ => .err "column nope does not exist")).generated_query =
      "SELECT nope FROM employees" ∧
    (generate_and_run (.ok "DROP TABLE employees") (fun _ => false)
      (fun _ => .err "x")).generated_query = "DROP TABLE employees" ∧
    (orchestrate .sql ⟨[], [], ""⟩ []).cache_status = .miss :=
  ⟨((c3_failure_preserves_query "SELECT nope FROM employees" (fun _ => true)
      (fun _ => .err "column nope does not exist") .sql ⟨[], [], ""⟩ []).2.1
      "column nope does not exist" rfl rfl).1,
   ((c3_failure_preserves_query "SELECT nope FROM employees" (fun _ => true)
      (fun _ => .err "column nope does not exist") .sql ⟨[], [], ""⟩ []).2.1
      "column nope does not exist" rfl rfl).2.2,
   ((c3_failure_preserves_query "DROP TABLE employees" (fun _ => false)
      (fun _ => .err "x") .sql ⟨[], [], ""⟩ []).1 rfl).2,
   (c3_failure_preserves_query "" (fun _ => true) (fun _ => .err "")
      .sql ⟨[], [], ""⟩ []).2.2⟩

/-- Claim C5: the document path returns at most one DocumentAnswer — the
best-scoring extraction across the candidates — never a list of multiple
candidates. -/
theorem c5_at_most_one_answer (topK : List Candidate)
    (extract : Chunk → Option (String × ℚ)) (minSim : ℚ) :
    (answer topK extract minSim).length ≤ 1 ∧
    ∀ b, bestExtraction (extractions topK extract minSim) = some b →
      answer topK extract minSim = [toAnswer b] ∧
      ∀ e ∈ extractions topK extract minSim, e.score ≤ b.score := by
  constructor
  · simp only [answer]
    cases h : bestExtraction (extractions topK extract minSim) <;> simp
  · intro b hb
    exact ⟨by simp [answer, hb], bestExtraction_is_max _ b hb⟩

/-- Witness for C5: with two candidates whose extractions score 1 and 2,
the single returned answer is the higher-scoring one. -/
theorem c5_witness :
    answer [⟨⟨"a.txt", 0, "alpha"⟩, 1⟩, ⟨⟨"b.txt", 1, "beta"⟩, 1⟩]
      (fun ch => if ch.chunk_index = 0 then some ("first", 1)
        else some ("second", 2)) 0 =
      [⟨"b.txt", 1, "second", 1⟩] ∧
    (answer [⟨⟨"a.txt", 0, "alpha"⟩, 1⟩, ⟨⟨"b.txt", 1, "beta"⟩, 1⟩]
      (fun ch => if ch.chunk_index = 0 then some ("first", 1)
        else some ("second", 2)) 0).length ≤ 1 :=
  ⟨((c5_at_most_one_answer
      [⟨⟨"a.txt", 0, "alpha"⟩, 1⟩, ⟨⟨"b.txt", 1, "beta"⟩, 1⟩]
      (fun ch => if ch.chunk_index = 0 then some ("first", 1)
        else some ("second", 2)) 0).2
      ⟨⟨⟨"b.txt", 1, "beta"⟩, 1⟩, "second", 2⟩ (by decide)).1,
   (c5_at_most_one_answer
      [⟨⟨"a.txt", 0, "alpha"⟩, 1⟩, ⟨⟨"b.txt", 1, "beta"⟩, 1⟩]
      (fun ch => if ch.chunk_index = 0 then some ("first", 1)
        else some ("second", 2)) 0).1⟩

/-- Claim C6: a successful execution's column order and rows are captured
verbatim in the SqlResult, and a SQL NULL cell is an explicit null marker,
distinct from the empty string, rendered as a distinguished NULL badge. -/
theorem c6_verbatim_capture (sql : String) (cols : List String)
    (rows : List (List Cell)) (validates : String → Bool)
    (exec : String → ExecOutcome) (hv : validates sql = true)
    (he : exec sql = .ok cols rows) :
    (generate_and_run (.ok sql) validates exec).columns = cols ∧
    (generate_and_run (.ok sql) validates exec).rows = rows ∧
    (generate_and_run (.ok sql) validates exec).generated_query = sql ∧
    renderCell Cell.null = RenderedCell.nullBadge ∧
    (∀ s, renderCell (Cell.str s) = RenderedCell.text s) ∧
    Cell.null ≠ Cell.str "" ∧
    RenderedCell.nullBadge ≠ RenderedCell.text "" := by
  refine ⟨?_, ?_, ?_, rfl, fun s => rfl, by decide, by decide⟩ <;>
    simp [generate_and_run, hv, he]

/-- Witness for C6: a one-row result whose cell is SQL NULL is captured
verbatim and renders as the NULL badge. -/
theorem c6_witness :
    (generate_and_run (.ok "SELECT phone_number FROM employees")
      (fun _ => true)
      (fun _ => .ok ["phone_number"] [[Cell.null]])).columns =
      ["phone_number"] ∧
    (generate_and_run (.ok "SELECT phone_number FROM employees")
      (fun _ => true)
      (fun _ => .ok ["phone_number"] [[Cell.null]])).rows = [[Cell.null]] ∧
    renderCell Cell.null = RenderedCell.nullBadge :=
  ⟨(c6_verbatim_capture "SELECT phone_number FROM employees"
      ["phone_number"] [[Cell.null]] (fun _ => true)
      (fun _ => .ok ["phone_number"] [[Cell.null]]) rfl rfl).1,
   (c6_verbatim_capture "SELECT phone_number FROM employees"
      ["phone_number"] [[Cell.null]] (fun _ => true)
      (fun _ => .ok ["phone_number"] [[Cell.null]]) rfl rfl).2.1,
   (c6_verbatim_capture "SELECT phone_number FROM employees"
      ["phone_number"] [[Cell.null]] (fun _ => true)
      (fun _ => .ok ["phone_number"] [[Cell.null]]) rfl rfl).2.2.2.1⟩

/-- Counterexample to Claim C7 as stated: a zero-row successful execution
whose real column list is the one-element list ["Error"] is
indistinguishable from the sentinel — the SqlTable renderer classifies it
as an execution error and shows the fallback database-error message. -/
theorem c7_counterexample :
    (generate_and_run (.ok "SELECT 1 AS Error WHERE false") (fun _ => true)
      (fun _ => .ok ["Error"] [])).rows = [] ∧
    isErrorSentinel (generate_and_run (.ok "SELECT 1 AS Error WHERE false")
      (fun _ => true) (fun _ => .ok ["Error"] [])) = true ∧
    (SqlTable (some (generate_and_run (.ok "SELECT 1 AS Error WHERE false")
      (fun _ => true) (fun _ => .ok ["Error"] [])))).isError = true ∧
    (SqlTable (some (generate_and_run (.ok "SELECT 1 AS Error WHERE false")
      (fun _ => true) (fun _ => .ok ["Error"] [])))).message =
      some "Unknown database error" :=
  ⟨rfl, rfl, rfl, rfl⟩

/-- Claim C7 (amended): a SQL execution succeeding with zero rows yields a
success SqlResult with empty rows and the real column list, and — provided
that column list is not the one-element list ["Error"] — it is not
classified as the error sentinel: the renderer reports it as a zero-row
success, never as an execution error. -/
theorem c7_zero_rows_success (sql : String) (cols : List String)
    (validates : String → Bool) (exec : String → ExecOutcome)
    (hv : validates sql = true) (he : exec sql = .ok cols [])
    (hc : cols ≠ ["Error"]) :
    (generate_and_run (.ok sql) validates exec).rows = [] ∧
    (generate_and_run (.ok sql) validates exec).columns = cols ∧
    isErrorSentinel (generate_and_run (.ok sql) validates exec) = false ∧
    SqlTable (some (generate_and_run (.ok sql) validates exec)) =
      .zeroRows (if sql ≠ "" then sql else "N/A") := by
  have hr : generate_and_run (.ok sql) validates exec =
      { columns := cols, rows := [], generated_query := sql } := by
    simp [generate_and_run, hv, he]
  have hsent : isErrorSentinel
      { columns := cols, rows := ([] : List (List Cell)),
        generated_query := sql } = false :=
    isErrorSentinel_false_of_ne _ hc
  rw [hr]
  refine ⟨rfl, rfl, hsent, ?_⟩
  simp [SqlTable, hsent]

/-- Witness for the amended C7: a zero-row success over a real column list
renders as the zero-row branch, not the error branch. -/
theorem c7_witness :
    (generate_and_run (.ok "SELECT first_name FROM employees WHERE false")
      (fun _ => true) (fun _ => .ok ["first_name"] [])).rows = [] ∧
    isErrorSentinel (generate_and_run
      (.ok "SELECT first_name FROM employees WHERE false") (fun _ => true)
      (fun _ => .ok ["first_name"] [])) = false :=
  ⟨(c7_zero_rows_success "SELECT first_name FROM employees WHERE false"
      ["first_name"] (fun _ => true) (fun _ => .ok ["first_name"] [])
      rfl rfl (by decide)).1,
   (c7_zero_rows_success "SELECT first_name FROM employees WHERE false"
      ["first_name"] (fun _ => true) (fun _ => .ok ["first_name"] [])
      rfl rfl (by decide)).2.2.1⟩

end Ekam
